import Mathlib

/-!
Verification of the Autonotez audio recording core.

The definitions below are a shallow embedding of the recording page
(`src/client/app/dashboard/page.tsx`, the `RecordingPage` component with
`startRecording` / `stopRecording`) and of the level monitor
(`src/client/lib/audio.ts`, `createAudioLevelMonitor`).

Host streams are identified by natural numbers.  A `World` carries the
React component state (`PageState`, mirroring the refs and `useState`
cells) together with explicit resource accounting: which acquired
streams still have live (unstopped) tracks, which level-monitor analysis
contexts are still open, and how many mixing `AudioContext`s are live.
Host-call results (getUserMedia, getDisplayMedia, isTypeSupported) are
provided by an `Env`; the functions additionally return the outcome seen
by the caller and a trace of host effects.
-/

namespace Autonotez

/-- The `AudioSource` union type from page.tsx line 93. -/
inductive AudioSource
  | microphone
  | system
  | both
deriving DecidableEq, Repr

/-- The constraints object passed to `getDisplayMedia` (page.tsx lines 126-133). -/
structure DisplayConstraints where
  video : Bool
  echoCancellation : Bool
  noiseSuppression : Bool
  autoGainControl : Bool
deriving DecidableEq, Repr

/-- The literal constraints of the `getDisplayMedia` call in `startRecording`:
`video: false`, `echoCancellation: false`, `noiseSuppression: false`,
`autoGainControl: false`. -/
def systemAudioConstraints : DisplayConstraints :=
  { video := false
    echoCancellation := false
    noiseSuppression := false
    autoGainControl := false }

/-- Typed capture errors of the spec's error taxonomy (section 7). -/
inductive CaptureError
  | permissionDenied
  | deviceUnavailable
  | unsupportedPlatform
deriving DecidableEq, Repr

/-- Result of a host acquisition call: a live stream id or a typed error. -/
inductive AcqResult
  | ok (stream : Nat)
  | err (e : CaptureError)
deriving DecidableEq, Repr

/-- Host environment: outcomes of the host-API calls that `startRecording`
performs.  `webmSupported` and `oggSupported` form the host's recording
support table: `MediaRecorder.isTypeSupported("audio/webm")` reads the first
entry, and the `MediaRecorder` constructor checks the entry of whatever mime
type it is handed (`mimeSupported`).  The mime-selection code itself never
probes "audio/ogg". -/
structure Env where
  micResult : AcqResult
  systemResult : AcqResult
  webmSupported : Bool
  oggSupported : Bool
deriving DecidableEq, Repr

/-- A finalized recording artifact: the `Blob` built in `mr.onstop`. -/
structure Artifact where
  bytes : List Nat
  mimeType : String
deriving DecidableEq, Repr

/-- Size in bytes of an artifact (`blob.size`). -/
def Artifact.sizeBytes (a : Artifact) : Nat := a.bytes.length

/-- The `new Blob(chunks, { type: mime })` constructor: concatenates the chunk
byte sequences in order. -/
def mkBlob (chunks : List (List Nat)) (mime : String) : Artifact :=
  { bytes := chunks.flatten, mimeType := mime }

/-- The component state of `RecordingPage`: the `useState` cells and refs that
the recording logic reads and writes.  Monitors are identified by the stream
they are attached to. -/
structure PageState where
  micStream : Option Nat
  systemStream : Option Nat
  micMonitorCleanup : Option Nat
  systemMonitorCleanup : Option Nat
  recording : Bool
  chunks : List (List Nat)
  recorderMime : Option String
  recordedBlob : Option Artifact
deriving DecidableEq, Repr

/-- World: component state plus explicit resource accounting.
`openStreams` lists acquired streams whose tracks have not been stopped;
`liveMonitors` lists level monitors whose analysis `AudioContext` has not been
closed; `liveMixContexts` counts mixing `AudioContext`s (created in "both"
mode) that have not been closed. -/
structure World where
  page : PageState
  openStreams : List Nat
  liveMonitors : List Nat
  liveMixContexts : Nat
deriving DecidableEq, Repr

/-- Initial component state: all refs null, not recording, empty chunk buffer. -/
def initPage : PageState :=
  { micStream := none
    systemStream := none
    micMonitorCleanup := none
    systemMonitorCleanup := none
    recording := false
    chunks := []
    recorderMime := none
    recordedBlob := none }

/-- Initial world: nothing acquired, no live contexts. -/
def initWorld : World :=
  { page := initPage, openStreams := [], liveMonitors := [], liveMixContexts := 0 }

/-- Host effects performed by `startRecording`, in order. -/
inductive Effect
  | acquireMic
  | acquireSystem (c : DisplayConstraints)
  | monitorCreated (stream : Nat)
  | mixContextCreated
  | recorderCreated (mime : String)
deriving DecidableEq, Repr

/-- Outcome of a `startRecording` call as seen by its caller.  The code only
ever produces the first four: `alerted e` is the catch block swallowing a
typed acquisition error, and `alertedNotSupported` is the same catch block
swallowing the `NotSupportedError` thrown by the `MediaRecorder` constructor
when the chosen mime type is not recordable.  `failedAlreadyActive` and
`failedUnsupportedFormat` are the typed failures the spec describes, included
so that spec-level statements about them can be expressed; no code path
produces them. -/
inductive StartOutcome
  | started
  | ignoredAlreadyRecording
  | alerted (e : CaptureError)
  | alertedNotSupported
  | failedAlreadyActive
  | failedUnsupportedFormat
deriving DecidableEq, Repr

/-- Effect of the microphone branch (page.tsx lines 118-123): store the stream,
attach a level monitor, record both as live resources. -/
def openMic (w : World) (mic : Nat) : World :=
  { w with
    page := { w.page with micStream := some mic, micMonitorCleanup := some mic }
    openStreams := w.openStreams ++ [mic]
    liveMonitors := w.liveMonitors ++ [mic] }

/-- Effect of the system branch (page.tsx lines 125-135): store the stream,
attach a level monitor, record both as live resources. -/
def openSystem (w : World) (sys : Nat) : World :=
  { w with
    page := { w.page with systemStream := some sys, systemMonitorCleanup := some sys }
    openStreams := w.openStreams ++ [sys]
    liveMonitors := w.liveMonitors ++ [sys] }

/-- Mime selection in the `MediaRecorder` options (page.tsx lines 157-161):
`MediaRecorder.isTypeSupported("audio/webm") ? "audio/webm" : "audio/ogg"`.
Only "audio/webm" is probed; "audio/ogg" is the unconditional fallback. -/
def chooseMime (webmSupported : Bool) : String :=
  if webmSupported then "audio/webm" else "audio/ogg"

/-- Whether the host can record the given mime type: the host's support table
consulted both by `isTypeSupported` and by the `MediaRecorder` constructor. -/
def mimeSupported (env : Env) (mime : String) : Bool :=
  if mime = "audio/webm" then env.webmSupported
  else if mime = "audio/ogg" then env.oggSupported
  else false

/-- The `new MediaRecorder(combinedStream, { mimeType: ... })` call and the
rest of the success path (page.tsx lines 157-178).  The constructor throws
`NotSupportedError` when the host cannot record the chosen mime type — which
happens exactly when "audio/webm" is unsupported (so the unprobed "audio/ogg"
fallback was chosen) and "audio/ogg" is unsupported too; the throw lands in
the surrounding catch block, which logs and alerts without releasing any of
the already-acquired streams or monitors (`alertedNotSupported`, world
unchanged).  On success the chunk buffer is reset, the fragment handlers are
installed, the recorder is started and `recording` is set to true. -/
def createRecorder (env : Env) (w : World) (eff : List Effect) :
    World × StartOutcome × List Effect :=
  if mimeSupported env (chooseMime env.webmSupported) then
    ({ w with
       page := { w.page with
         chunks := []
         recorderMime := some (chooseMime env.webmSupported)
         recording := true } },
     .started, eff ++ [.recorderCreated (chooseMime env.webmSupported)])
  else
    (w, .alertedNotSupported, eff)

/-- Shallow embedding of `startRecording` (page.tsx lines 112-183).  The early
return `if (recording) return;` yields `ignoredAlreadyRecording`.  The two
sequential source conditionals are unfolded per `AudioSource` value; in `both`
mode the microphone is acquired first, then system audio, then the mixing
`AudioContext` is built, and finally the `MediaRecorder` is constructed
(`createRecorder`).  Any host error — a typed acquisition failure or the
constructor's `NotSupportedError` — is caught by the surrounding try/catch,
which logs and alerts without rethrowing and without releasing anything
already acquired. -/
def startRecording (env : Env) (src : AudioSource) (w : World) :
    World × StartOutcome × List Effect :=
  if w.page.recording then
    (w, .ignoredAlreadyRecording, [])
  else
    match src with
    | .microphone =>
      match env.micResult with
      | .err e => (w, .alerted e, [.acquireMic])
      | .ok mic =>
        let w1 := openMic w mic
        createRecorder env w1 [.acquireMic, .monitorCreated mic]
    | .system =>
      match env.systemResult with
      | .err e => (w, .alerted e, [.acquireSystem systemAudioConstraints])
      | .ok sys =>
        let w1 := openSystem w sys
        createRecorder env w1 [.acquireSystem systemAudioConstraints, .monitorCreated sys]
    | .both =>
      match env.micResult with
      | .err e => (w, .alerted e, [.acquireMic])
      | .ok mic =>
        let w1 := openMic w mic
        match env.systemResult with
        | .err e =>
          (w1, .alerted e,
           [.acquireMic, .monitorCreated mic, .acquireSystem systemAudioConstraints])
        | .ok sys =>
          let w2 := openSystem w1 sys
          let w3 := { w2 with liveMixContexts := w2.liveMixContexts + 1 }
          createRecorder env w3
            [.acquireMic, .monitorCreated mic, .acquireSystem systemAudioConstraints,
             .mixContextCreated]

/-- The `ondataavailable` handler (page.tsx lines 165-167): append the chunk
only when its size is strictly positive. -/
def pushChunk (chunks : List (List Nat)) (d : List Nat) : List (List Nat) :=
  if 0 < d.length then chunks ++ [d] else chunks

/-- Deliver a sequence of encoder fragments to the running session, each
through the `ondataavailable` handler. -/
def recordFragments (w : World) (fs : List (List Nat)) : World :=
  { w with page := { w.page with chunks := fs.foldl pushChunk w.page.chunks } }

/-- Stop the tracks of stream `s`: it is no longer open. -/
def removeId (l : List Nat) (s : Nat) : List Nat :=
  l.filter (fun x => x != s)

/-- Shallow embedding of `stopRecording` (page.tsx lines 185-213).  The early
return `if (!recording) return;` leaves the world unchanged.  Then:
`mediaRecorder.stop()` fires `onstop`, which builds the `Blob` from the
buffered chunks with the recorder's mime type; the mic and system stream
tracks are stopped and the state cells nulled; both monitor cleanups are
invoked (closing their analysis contexts) and nulled; `recording` is set to
false.  Nothing touches `liveMixContexts`: the mixing `AudioContext` of
"both" mode is never closed. -/
def stopRecording (w : World) : World :=
  if !w.page.recording then w
  else
    let p := w.page
    let p1 : PageState :=
      { p with recordedBlob :=
          match p.recorderMime with
          | some mime => some (mkBlob p.chunks mime)
          | none => p.recordedBlob }
    let step2 : List Nat × PageState :=
      match p1.micStream with
      | some m => (removeId w.openStreams m, { p1 with micStream := none })
      | none => (w.openStreams, p1)
    let step3 : List Nat × PageState :=
      match step2.2.systemStream with
      | some s => (removeId step2.1 s, { step2.2 with systemStream := none })
      | none => (step2.1, step2.2)
    let step4 : List Nat × PageState :=
      match step3.2.micMonitorCleanup with
      | some m => (removeId w.liveMonitors m, { step3.2 with micMonitorCleanup := none })
      | none => (w.liveMonitors, step3.2)
    let step5 : List Nat × PageState :=
      match step4.2.systemMonitorCleanup with
      | some s => (removeId step4.1 s, { step4.2 with systemMonitorCleanup := none })
      | none => (step4.1, step4.2)
    { page := { step5.2 with recording := false }
      openStreams := step3.1
      liveMonitors := step5.1
      liveMixContexts := w.liveMixContexts }

/-- A convenient successful host environment: microphone is stream 1, system
audio is stream 2, "audio/webm" is supported. -/
def env0 : Env :=
  { micResult := .ok 1, systemResult := .ok 2, webmSupported := true, oggSupported := true }

/-- Environment where system-audio acquisition is denied after the microphone
succeeds. -/
def envSysDenied : Env :=
  { micResult := .ok 1, systemResult := .err .permissionDenied
    webmSupported := true, oggSupported := true }

/-- Environment where the host supports neither "audio/webm" nor "audio/ogg". -/
def envNoWebm : Env :=
  { micResult := .ok 1, systemResult := .ok 2, webmSupported := false, oggSupported := false }

/-- A world with an active recording session (microphone session started from
the initial world under `env0`). -/
def recWorld : World :=
  (startRecording env0 .microphone initWorld).1

/-!
Shallow embedding of `createAudioLevelMonitor` (src/client/lib/audio.ts).
The closure state is the `active` flag together with the analysis
`AudioContext`; the returned cancellation handle sets `active = false` and
calls `ctx.close()`, unconditionally.
-/

/-- Closure state of one level monitor: the `active` flag and whether the
analysis `AudioContext` has been closed. -/
structure Monitor where
  active : Bool
  ctxClosed : Bool
deriving DecidableEq, Repr

/-- Monitor state right after `createAudioLevelMonitor` returns. -/
def initMonitor : Monitor :=
  { active := true, ctxClosed := false }

/-- Observable host effect of the cancellation handle. -/
inductive MonitorEffect
  | ctxCloseCalled
deriving DecidableEq, Repr

/-- The cancellation handle returned by `createAudioLevelMonitor`
(audio.ts lines 28-31): `active = false; ctx.close()`.  There is no guard:
`ctx.close()` is invoked on every call. -/
def cancelMonitor (m : Monitor) : Monitor × List MonitorEffect :=
  ({ m with active := false, ctxClosed := true }, [.ctxCloseCalled])

/-- Two consecutive invocations of the cancellation handle, accumulating
their host effects. -/
def cancelTwice (m : Monitor) : Monitor × List MonitorEffect :=
  let r1 := cancelMonitor m
  let r2 := cancelMonitor r1.1
  (r2.1, r1.2 ++ r2.2)

/-- The per-tick sum of squared normalized samples (audio.ts lines 17-21):
each raw byte `b` is normalized to `(b - 128) / 128` and the squares are
accumulated by the loop. -/
def sumSquares (data : List Nat) : ℚ :=
  data.foldl (fun (acc : ℚ) (b : Nat) => acc + (((b : ℚ) - 128) / 128) * (((b : ℚ) - 128) / 128)) 0

/-- The mean of the squared normalized samples: `sumSquares / data.length`
(audio.ts line 22).  The level delivered to `onLevel` is the real square root
of this value. -/
def meanSquare (data : List Nat) : ℚ :=
  sumSquares data / (data.length : ℚ)

/-- Run the monitor's tick loop over a schedule of sampled windows
(audio.ts lines 14-26), returning the mean-square values whose square roots
are delivered to `onLevel`.  Each tick first checks `active`; when the flag
is cleared it returns without sampling, emitting, or rescheduling. -/
def runTicks (windows : List (List Nat)) (m : Monitor) : List ℚ :=
  match windows with
  | [] => []
  | d :: ds => if m.active then meanSquare d :: runTicks ds m else []

/-!
Helper lemmas shared by the claim theorems.
-/

/-- Folding an additive update is summation over the mapped list. -/
theorem foldl_add_map (g : Nat → ℚ) (l : List Nat) (a : ℚ) :
    l.foldl (fun (acc : ℚ) (b : Nat) => acc + g b) a = a + (l.map g).sum := by
  induction l generalizing a with
  | nil => simp
  | cons x xs ih => simp [List.foldl_cons, ih, add_assoc]

/-- The tick loop's accumulated sum equals the sum of squared normalized
samples. -/
theorem sumSquares_eq_sum_map (data : List Nat) :
    sumSquares data = (data.map (fun (b : Nat) => (((b : ℚ) - 128) / 128) ^ 2)).sum := by
  have h := foldl_add_map
    (fun (b : Nat) => (((b : ℚ) - 128) / 128) * (((b : ℚ) - 128) / 128)) data 0
  have hfun : (fun (b : Nat) => (((b : ℚ) - 128) / 128) * (((b : ℚ) - 128) / 128))
      = (fun (b : Nat) => (((b : ℚ) - 128) / 128) ^ 2) := by
    funext b
    rw [sq]
  rw [sumSquares, h, zero_add, hfun]

/-- A byte in [0, 255] normalizes to a sample whose square is at most one. -/
theorem normSq_le_one (b : Nat) (hb : b ≤ 255) : (((b : ℚ) - 128) / 128) ^ 2 ≤ 1 := by
  have h0 : (0 : ℚ) ≤ (b : ℚ) := by positivity
  have h1 : (b : ℚ) ≤ 255 := by exact_mod_cast hb
  rw [div_pow, div_le_one (by norm_num : (0 : ℚ) < 128 ^ 2)]
  nlinarith

/-- Folding the `ondataavailable` guard over a fragment list appends exactly
the fragments of positive size, in order. -/
theorem foldl_pushChunk_eq (fs : List (List Nat)) (acc : List (List Nat)) :
    List.foldl pushChunk acc fs = acc ++ fs.filter (fun d => decide (0 < d.length)) := by
  induction fs generalizing acc with
  | nil => simp
  | cons x xs ih =>
    by_cases hx : 0 < x.length <;>
      simp [List.foldl_cons, pushChunk, List.filter_cons, hx, ih]

/-!
Claim theorems.
-/

/-- C1 counterexample: with the microphone granted as stream 1 and system-audio
acquisition failing with `PermissionDenied`, `start("both")` from the initial
world leaves the microphone stream and its level monitor open — the
already-opened handles are not closed before the error surfaces — and the
error is swallowed by the catch block (logged and alerted), not surfaced to
the caller as a typed failure. -/
theorem c1_counterexample :
    (startRecording envSysDenied .both initWorld).1.openStreams ≠ [] ∧
    (startRecording envSysDenied .both initWorld).1.openStreams = [1] ∧
    (startRecording envSysDenied .both initWorld).1.liveMonitors = [1] ∧
    (startRecording envSysDenied .both initWorld).2.1
      = .alerted .permissionDenied := by
  decide

/-- C1 (amended): when `start("both")` fails on system-audio acquisition after
the microphone was opened, the catch block catches the error (console.error +
alert, nothing rethrown to the caller), `recording` stays false, and the
already-opened microphone stream and its level monitor remain open — they are
not closed. -/
theorem c1_start_both_sysfail_leaks_mic (env : Env) (mic : Nat) (e : CaptureError)
    (w : World) (hrec : w.page.recording = false)
    (hm : env.micResult = .ok mic) (hs : env.systemResult = .err e) :
    startRecording env .both w =
      (openMic w mic, .alerted e,
        [.acquireMic, .monitorCreated mic, .acquireSystem systemAudioConstraints]) ∧
    (openMic w mic).openStreams = w.openStreams ++ [mic] ∧
    (openMic w mic).liveMonitors = w.liveMonitors ++ [mic] ∧
    (openMic w mic).page.recording = false := by
  refine ⟨by simp [startRecording, hrec, hm, hs], rfl, rfl, ?_⟩
  simp [openMic, hrec]

/-- C1 witness: the amended statement instantiated in the concrete
`envSysDenied` scenario. -/
theorem c1_start_both_sysfail_leaks_mic_witness :
    initWorld.page.recording = false ∧
    envSysDenied.micResult = .ok 1 ∧
    envSysDenied.systemResult = .err .permissionDenied ∧
    (startRecording envSysDenied .both initWorld =
      (openMic initWorld 1, .alerted .permissionDenied,
        [.acquireMic, .monitorCreated 1, .acquireSystem systemAudioConstraints]) ∧
     (openMic initWorld 1).openStreams = initWorld.openStreams ++ [1] ∧
     (openMic initWorld 1).liveMonitors = initWorld.liveMonitors ++ [1] ∧
     (openMic initWorld 1).page.recording = false) :=
  ⟨rfl, rfl, rfl,
    c1_start_both_sysfail_leaks_mic envSysDenied 1 .permissionDenied initWorld rfl rfl rfl⟩

/-- C2 counterexample: calling `start()` while a session is recording does not
fail with the typed error `AlreadyActive`; it is silently ignored (the guard
`if (recording) return;` returns without any error). -/
theorem c2_counterexample :
    recWorld.page.recording = true ∧
    (startRecording env0 .microphone recWorld).2.1 = .ignoredAlreadyRecording ∧
    (startRecording env0 .microphone recWorld).2.1 ≠ .failedAlreadyActive := by
  decide

/-- C2 (amended): while `recording` is true, a second `start()` call returns
immediately with no typed error and leaves the world — streams, monitors,
recorder, fragment buffer — completely unchanged: it is silently ignored, not
rejected with `AlreadyActive`.  (During acquisition, before `recording` is
set, the code has no guard at all.) -/
theorem c2_start_while_recording_silently_ignored (env : Env) (src : AudioSource)
    (w : World) (h : w.page.recording = true) :
    startRecording env src w = (w, .ignoredAlreadyRecording, []) := by
  simp [startRecording, h]

/-- C2 witness: the amended statement instantiated on a concrete recording
session. -/
theorem c2_start_while_recording_silently_ignored_witness :
    recWorld.page.recording = true ∧
    startRecording env0 .system recWorld = (recWorld, .ignoredAlreadyRecording, []) :=
  ⟨rfl, c2_start_while_recording_silently_ignored env0 .system recWorld rfl⟩

/-- C3 counterexample: in "both" mode, `start()` immediately followed by
`stop()` leaves the mixing `AudioContext` live — `stopRecording` never closes
it — so the session does not end with zero live MixGraphs. -/
theorem c3_counterexample :
    (stopRecording (startRecording env0 .both initWorld).1).liveMixContexts ≠ 0 ∧
    (stopRecording (startRecording env0 .both initWorld).1).liveMixContexts = 1 := by
  decide

/-- C3 (amended): for every `AudioSource`, on a host that can record the
selected encoder format (so the start actually reaches `Recording`),
`start()` immediately followed by `stop()` stops the microphone stream, the
system stream, and both level monitors (zero open CaptureHandles, zero live
monitor contexts), but the mixing `AudioContext` created in "both" mode
remains live: no code path closes it.  (When the host can record neither
format, start instead fails inside the `MediaRecorder` constructor, `stop()`
is a no-op, and the acquired streams and monitors leak as well.) -/
theorem c3_stop_releases_streams_but_not_mix (env : Env) (src : AudioSource)
    (mic sys : Nat) (hm : env.micResult = .ok mic) (hs : env.systemResult = .ok sys)
    (hne : sys ≠ mic)
    (hfmt : mimeSupported env (chooseMime env.webmSupported) = true) :
    (stopRecording (startRecording env src initWorld).1).openStreams = [] ∧
    (stopRecording (startRecording env src initWorld).1).liveMonitors = [] ∧
    (stopRecording (startRecording env src initWorld).1).liveMixContexts
      = (if src = .both then 1 else 0) := by
  cases src <;>
    simp [startRecording, stopRecording, openMic, openSystem, createRecorder,
      hfmt, initWorld, initPage, removeId, hm, hs, mkBlob, hne]

/-- C3 witness: the amended statement instantiated with distinct concrete
streams in "both" mode on a webm-capable host. -/
theorem c3_stop_releases_streams_but_not_mix_witness :
    env0.micResult = .ok 1 ∧ env0.systemResult = .ok 2 ∧ (2 : Nat) ≠ 1 ∧
    mimeSupported env0 (chooseMime env0.webmSupported) = true ∧
    ((stopRecording (startRecording env0 .both initWorld).1).openStreams = [] ∧
     (stopRecording (startRecording env0 .both initWorld).1).liveMonitors = [] ∧
     (stopRecording (startRecording env0 .both initWorld).1).liveMixContexts
       = (if AudioSource.both = .both then 1 else 0)) :=
  ⟨rfl, rfl, by decide, by decide,
    c3_stop_releases_streams_but_not_mix env0 .both 1 2 rfl rfl (by decide) (by decide)⟩

set_option maxRecDepth 4096 in
/-- C4: start a session on a host that can record the chosen format (so the
recorder exists and the session is Recording), deliver any sequence of
encoder fragments through `ondataavailable`, then stop: the finalized
artifact is exactly the `Blob` built from the buffered fragments — its bytes
are the concatenation of the buffered fragments in strict arrival order, its
size is the sum of their sizes, and its mime type is the recorder's. -/
theorem c4_artifact_is_ordered_concatenation (env : Env) (mic : Nat)
    (fs : List (List Nat)) (hm : env.micResult = .ok mic)
    (hfmt : mimeSupported env (chooseMime env.webmSupported) = true) :
    (stopRecording
        (recordFragments (startRecording env .microphone initWorld).1 fs)).page.recordedBlob
      = some (mkBlob
          (recordFragments (startRecording env .microphone initWorld).1 fs).page.chunks
          (chooseMime env.webmSupported)) ∧
    (mkBlob
        (recordFragments (startRecording env .microphone initWorld).1 fs).page.chunks
        (chooseMime env.webmSupported)).bytes
      = (recordFragments (startRecording env .microphone initWorld).1 fs).page.chunks.flatten ∧
    (mkBlob
        (recordFragments (startRecording env .microphone initWorld).1 fs).page.chunks
        (chooseMime env.webmSupported)).sizeBytes
      = ((recordFragments (startRecording env .microphone initWorld).1 fs).page.chunks.map
          List.length).sum := by
  refine ⟨?_, rfl, ?_⟩
  · simp [startRecording, hm, initWorld, initPage, openMic, createRecorder, hfmt,
      recordFragments, stopRecording]
  · simp [mkBlob, Artifact.sizeBytes, List.length_flatten]

/-- C4 witness: fragments of 100 and 50 bytes yield an artifact whose bytes
are F1 followed by F2 and whose size is 150. -/
theorem c4_artifact_is_ordered_concatenation_witness :
    env0.micResult = .ok 1 ∧
    mimeSupported env0 (chooseMime env0.webmSupported) = true ∧
    ((stopRecording
        (recordFragments (startRecording env0 .microphone initWorld).1
          [List.replicate 100 7, List.replicate 50 9])).page.recordedBlob
      = some (mkBlob
          (recordFragments (startRecording env0 .microphone initWorld).1
            [List.replicate 100 7, List.replicate 50 9]).page.chunks
          (chooseMime env0.webmSupported)) ∧
     (mkBlob
        (recordFragments (startRecording env0 .microphone initWorld).1
          [List.replicate 100 7, List.replicate 50 9]).page.chunks
        (chooseMime env0.webmSupported)).bytes
      = (recordFragments (startRecording env0 .microphone initWorld).1
          [List.replicate 100 7, List.replicate 50 9]).page.chunks.flatten ∧
     (mkBlob
        (recordFragments (startRecording env0 .microphone initWorld).1
          [List.replicate 100 7, List.replicate 50 9]).page.chunks
        (chooseMime env0.webmSupported)).sizeBytes
      = ((recordFragments (startRecording env0 .microphone initWorld).1
          [List.replicate 100 7, List.replicate 50 9]).page.chunks.map List.length).sum) ∧
    (recordFragments (startRecording env0 .microphone initWorld).1
        [List.replicate 100 7, List.replicate 50 9]).page.chunks.flatten
      = List.replicate 100 7 ++ List.replicate 50 9 ∧
    ((recordFragments (startRecording env0 .microphone initWorld).1
        [List.replicate 100 7, List.replicate 50 9]).page.chunks.map List.length).sum
      = 150 :=
  ⟨rfl, by decide,
    c4_artifact_is_ordered_concatenation env0 1
      [List.replicate 100 7, List.replicate 50 9] rfl (by decide),
    by decide, by decide⟩

/-- C5 counterexample: with a host supporting neither "audio/webm" nor
"audio/ogg", the selection logic hands the unprobed "audio/ogg" fallback to
the `MediaRecorder` constructor, which throws `NotSupportedError`; the catch
block swallows it (logged and alerted).  No typed `UnsupportedFormat` error
is surfaced, and the already-acquired microphone stream and monitor are left
open. -/
theorem c5_counterexample :
    envNoWebm.webmSupported = false ∧ envNoWebm.oggSupported = false ∧
    (startRecording envNoWebm .microphone initWorld).2.1 = .alertedNotSupported ∧
    (startRecording envNoWebm .microphone initWorld).2.1 ≠ .failedUnsupportedFormat ∧
    (startRecording envNoWebm .microphone initWorld).1.page.recorderMime = none ∧
    (startRecording envNoWebm .microphone initWorld).1.page.recording = false ∧
    (startRecording envNoWebm .microphone initWorld).1.openStreams = [1] := by
  decide

/-- C5 (amended): the recorder probes exactly one mime type, "audio/webm";
when it is supported it is selected.  Otherwise "audio/ogg" is chosen
unconditionally, without probing (`chooseMime` never consults
`oggSupported`): when the host happens to record "audio/ogg" the session
starts with it, and when it records neither format the `MediaRecorder`
constructor throws `NotSupportedError`, which the catch block swallows — no
typed `UnsupportedFormat` error is surfaced to the caller, the session does
not start, and the already-acquired microphone stream stays open. -/
theorem c5_single_probe_unverified_fallback (env : Env) (mic : Nat) (w : World)
    (hrec : w.page.recording = false) (hm : env.micResult = .ok mic) :
    (env.webmSupported = true →
      (startRecording env .microphone w).2.1 = .started ∧
      (startRecording env .microphone w).1.page.recorderMime = some "audio/webm") ∧
    (env.webmSupported = false → env.oggSupported = true →
      (startRecording env .microphone w).2.1 = .started ∧
      (startRecording env .microphone w).1.page.recorderMime = some "audio/ogg") ∧
    (env.webmSupported = false → env.oggSupported = false →
      (startRecording env .microphone w).2.1 = .alertedNotSupported ∧
      (startRecording env .microphone w).2.1 ≠ .failedUnsupportedFormat ∧
      (startRecording env .microphone w).1.page.recording = false ∧
      (startRecording env .microphone w).1.openStreams = w.openStreams ++ [mic]) := by
  rcases env with ⟨mr, sr, webm, ogg⟩
  cases hm
  cases webm <;> cases ogg <;>
    simp [startRecording, hrec, openMic, createRecorder, mimeSupported, chooseMime]

/-- C5 witness: the amended statement instantiated on the host that supports
neither format. -/
theorem c5_single_probe_unverified_fallback_witness :
    initWorld.page.recording = false ∧
    envNoWebm.micResult = .ok 1 ∧
    ((envNoWebm.webmSupported = true →
       (startRecording envNoWebm .microphone initWorld).2.1 = .started ∧
       (startRecording envNoWebm .microphone initWorld).1.page.recorderMime
         = some "audio/webm") ∧
     (envNoWebm.webmSupported = false → envNoWebm.oggSupported = true →
       (startRecording envNoWebm .microphone initWorld).2.1 = .started ∧
       (startRecording envNoWebm .microphone initWorld).1.page.recorderMime
         = some "audio/ogg") ∧
     (envNoWebm.webmSupported = false → envNoWebm.oggSupported = false →
       (startRecording envNoWebm .microphone initWorld).2.1 = .alertedNotSupported ∧
       (startRecording envNoWebm .microphone initWorld).2.1 ≠ .failedUnsupportedFormat ∧
       (startRecording envNoWebm .microphone initWorld).1.page.recording = false ∧
       (startRecording envNoWebm .microphone initWorld).1.openStreams
         = initWorld.openStreams ++ [1])) :=
  ⟨rfl, rfl, c5_single_probe_unverified_fallback envNoWebm 1 initWorld rfl rfl⟩

/-- C6: for every 1024-sample window of raw bytes in [0, 255], the level
delivered by the tick is the root-mean-square of the window normalized via
`(b - 128) / 128`, and it lies in [0, 1]. -/
theorem c6_level_is_rms_in_unit_interval (data : List Nat)
    (hlen : data.length = 1024) (hb : ∀ b ∈ data, b ≤ 255) :
    Real.sqrt ((meanSquare data : ℚ) : ℝ)
      = Real.sqrt
          ((((data.map (fun (b : Nat) => (((b : ℚ) - 128) / 128) ^ 2)).sum
              / (data.length : ℚ) : ℚ)) : ℝ) ∧
    0 ≤ Real.sqrt ((meanSquare data : ℚ) : ℝ) ∧
    Real.sqrt ((meanSquare data : ℚ) : ℝ) ≤ 1 := by
  have hsum : sumSquares data ≤ (data.length : ℚ) := by
    rw [sumSquares_eq_sum_map]
    calc (data.map (fun (b : Nat) => (((b : ℚ) - 128) / 128) ^ 2)).sum
        ≤ (data.map (fun (b : Nat) => (((b : ℚ) - 128) / 128) ^ 2)).length • (1 : ℚ) := by
          refine List.sum_le_card_nsmul _ 1 ?_
          intro x hx
          obtain ⟨b, hbmem, rfl⟩ := List.mem_map.mp hx
          exact normSq_le_one b (hb b hbmem)
      _ = (data.length : ℚ) := by simp
  have hms : meanSquare data ≤ 1 := by
    rw [meanSquare, div_le_one (by rw [hlen]; norm_num)]
    exact hsum
  refine ⟨by rw [meanSquare, sumSquares_eq_sum_map], Real.sqrt_nonneg _, ?_⟩
  exact Real.sqrt_le_one.mpr (by exact_mod_cast hms)

/-- C6 witness: the silent window (1024 samples at the 128 midpoint). -/
theorem c6_level_is_rms_in_unit_interval_witness :
    (List.replicate 1024 128).length = 1024 ∧
    (∀ b ∈ List.replicate 1024 128, b ≤ 255) ∧
    (0 ≤ Real.sqrt ((meanSquare (List.replicate 1024 128) : ℚ) : ℝ) ∧
     Real.sqrt ((meanSquare (List.replicate 1024 128) : ℚ) : ℝ) ≤ 1) :=
  ⟨List.length_replicate 1024 128,
   by
     intro b hb
     rw [List.eq_of_mem_replicate hb]
     norm_num,
   (c6_level_is_rms_in_unit_interval (List.replicate 1024 128)
     (List.length_replicate 1024 128)
     (by
       intro b hb
       rw [List.eq_of_mem_replicate hb]
       norm_num)).2⟩

/-- C7 counterexample: invoking the cancellation handle twice does not produce
the same effects as invoking it once — the handle has no guard, so the second
invocation calls `ctx.close()` again on the already-closed analysis context
(two close calls instead of one). -/
theorem c7_counterexample :
    cancelTwice initMonitor ≠ cancelMonitor initMonitor ∧
    (cancelTwice initMonitor).2 = [.ctxCloseCalled, .ctxCloseCalled] ∧
    (cancelMonitor initMonitor).2 = [.ctxCloseCalled] := by
  decide

/-- C7 (amended): the cancellation handle is idempotent on the monitor state —
after one or two invocations the state is identical (scheduling halted,
context closed) — but it is not a no-op effect-wise: every invocation calls
`ctx.close()`, so two invocations issue two close calls on the analysis
context rather than one. -/
theorem c7_cancel_state_idempotent_close_repeated (m : Monitor) :
    (cancelTwice m).1 = (cancelMonitor m).1 ∧
    (cancelTwice m).1.active = false ∧
    (cancelTwice m).1.ctxClosed = true ∧
    (cancelTwice m).2 = [.ctxCloseCalled, .ctxCloseCalled] ∧
    (cancelMonitor m).2 = [.ctxCloseCalled] := by
  simp [cancelTwice, cancelMonitor]

/-- C8: once the cancellation handle has run, no further level samples are
ever emitted: whatever windows had been sampled before, every scheduled tick
after cancellation finds `active` false and returns without delivering a
sample — the overall emission sequence equals the pre-cancellation one. -/
theorem c8_no_samples_after_cancel (ticksBefore ticksAfter : List (List Nat))
    (m : Monitor) :
    runTicks ticksAfter (cancelMonitor m).1 = [] ∧
    runTicks ticksBefore m ++ runTicks ticksAfter (cancelMonitor m).1
      = runTicks ticksBefore m := by
  have h : runTicks ticksAfter (cancelMonitor m).1 = [] := by
    cases ticksAfter with
    | nil => rfl
    | cons d ds => simp [runTicks, cancelMonitor]
  exact ⟨h, by rw [h, List.append_nil]⟩

/-- C9: every system/display audio acquisition issued by `startRecording`
carries the constraints with video disabled and echo-cancellation,
noise-suppression, and automatic-gain-control all explicitly disabled. -/
theorem c9_system_capture_constraints (env : Env) (src : AudioSource) (w : World)
    (c : DisplayConstraints)
    (h : Effect.acquireSystem c ∈ (startRecording env src w).2.2) :
    c.video = false ∧ c.echoCancellation = false ∧
    c.noiseSuppression = false ∧ c.autoGainControl = false := by
  have hc : c = systemAudioConstraints := by
    rcases env with ⟨mr, sr, webm, ogg⟩
    cases hrec : w.page.recording <;> cases src <;> cases mr <;> cases sr <;>
      cases webm <;> cases ogg <;>
      simp [startRecording, createRecorder, mimeSupported, chooseMime, hrec] at h <;>
      tauto
  subst hc
  exact ⟨rfl, rfl, rfl, rfl⟩

/-- C9 witness: the constraint conclusion holds for the system acquisition
actually issued by a concrete system-mode start. -/
theorem c9_system_capture_constraints_witness :
    Effect.acquireSystem systemAudioConstraints
      ∈ (startRecording env0 .system initWorld).2.2 ∧
    (systemAudioConstraints.video = false ∧
     systemAudioConstraints.echoCancellation = false ∧
     systemAudioConstraints.noiseSuppression = false ∧
     systemAudioConstraints.autoGainControl = false) :=
  ⟨by decide,
   c9_system_capture_constraints env0 .system initWorld systemAudioConstraints
     (by decide)⟩

/-- C10: running the `ondataavailable` guard over any fragment sequence
buffers exactly the fragments of strictly positive size, in order — empty
fragments are discarded, every buffered fragment is non-empty, and the
artifact bytes built from the buffer are the concatenation of only the
non-empty fragments. -/
theorem c10_buffer_keeps_only_nonempty (fs : List (List Nat)) :
    List.foldl pushChunk [] fs = fs.filter (fun d => decide (0 < d.length)) ∧
    (∀ f ∈ List.foldl pushChunk [] fs, 0 < f.length) ∧
    ∀ mime, (mkBlob (List.foldl pushChunk [] fs) mime).bytes
      = (fs.filter (fun d => decide (0 < d.length))).flatten := by
  have h := foldl_pushChunk_eq fs []
  rw [List.nil_append] at h
  refine ⟨h, ?_, ?_⟩
  · intro f hf
    rw [h] at hf
    simpa using List.of_mem_filter hf
  · intro mime
    rw [mkBlob, h]

/-- C10 witness: a concrete run with an empty middle fragment. -/
theorem c10_buffer_keeps_only_nonempty_witness :
    List.foldl pushChunk [] [[5], [], [7, 8]] = [[5], [7, 8]] ∧
    0 < ([5] : List Nat).length ∧
    (mkBlob (List.foldl pushChunk [] [[5], [], [7, 8]]) "audio/webm").bytes
      = [5, 7, 8] :=
  ⟨((c10_buffer_keeps_only_nonempty [[5], [], [7, 8]]).1).trans (by decide),
   (c10_buffer_keeps_only_nonempty [[5], [], [7, 8]]).2.1 [5] (by decide),
   ((c10_buffer_keeps_only_nonempty [[5], [], [7, 8]]).2.2 "audio/webm").trans
     (by decide)⟩

end Autonotez
